import Mathlib

set_option maxRecDepth 10000

/-!
Shallow embedding of `cpp/src/structure/cugraph.cu`: a graph handle holding up
to three representations (edge list / adjacency list / transposed adjacency
list) of one logical graph, with view installation, lazy derivation via a
COO-to-CSR converter, a negative-edge-weight scan, and a cached vertex count.

External pieces not present under `src/` (the columnar-buffer helpers of cudf,
the converter headers, `CUGRAPH_EXPECTS`) are modelled from the specification;
each such definition's doc comment says so explicitly.
-/

/-- Error codes of the `gdf_error` enum used by the operations. The
`CUGRAPH_EXPECTS` messages map to the codes of the historical `GDF_REQUIRE`
checks: "Invalid API parameter" to `GDF_INVALID_API_CALL`, "Input column has
non-zero null count" to `GDF_VALIDITY_UNSUPPORTED`, "Unsupported data type" to
`GDF_UNSUPPORTED_DTYPE`, "Column size mismatch" to `GDF_COLUMN_SIZE_MISMATCH`,
"Column is empty" to `GDF_DATASET_EMPTY`. -/
inductive GdfError where
  | GDF_SUCCESS
  | GDF_INVALID_API_CALL
  | GDF_VALIDITY_UNSUPPORTED
  | GDF_UNSUPPORTED_DTYPE
  | GDF_COLUMN_SIZE_MISMATCH
  | GDF_DATASET_EMPTY
  | GDF_CUDA_ERROR
deriving DecidableEq, Repr

open GdfError

/-- Numeric type tags of the columnar buffer abstraction (`gdf_dtype`). -/
inductive GdfDtype where
  | GDF_invalid
  | GDF_INT8
  | GDF_INT16
  | GDF_INT32
  | GDF_INT64
  | GDF_FLOAT32
  | GDF_FLOAT64
  | GDF_DATE32
  | GDF_DATE64
  | GDF_TIMESTAMP
  | GDF_CATEGORY
  | GDF_STRING
deriving DecidableEq, Repr

open GdfDtype

/-- Tri-state property flag (`gdf_prop_t`). -/
inductive GdfProp where
  | GDF_PROP_UNDEF
  | GDF_PROP_FALSE
  | GDF_PROP_TRUE
deriving DecidableEq, Repr

open GdfProp

/-- Modelled from the spec: the external Columnar Buffer
`{ data, validity, null_count, size, dtype }`.  Element values are carried as
integers; the only value-level operations the code performs on weights are a
sign test and a permutation, which are exact on this carrier. The validity
bitmap pointer is not represented (the code only ever consults `null_count`). -/
structure GdfColumn where
  data : List Int
  size : Nat
  dtype : GdfDtype
  null_count : Nat
deriving DecidableEq, Repr

/-- Graph properties record; only the field this file's code touches. -/
structure GdfGraphProperties where
  has_negative_edges : GdfProp
deriving DecidableEq, Repr

/-- Edge list (COO) representation. -/
structure GdfEdgeList where
  src_indices : GdfColumn
  dest_indices : GdfColumn
  edge_data : Option GdfColumn
deriving DecidableEq, Repr

/-- Adjacency list (CSR) representation; the transposed adjacency list (CSC)
has the identical shape. -/
structure GdfAdjList where
  offsets : GdfColumn
  indices : GdfColumn
  edge_data : Option GdfColumn
deriving DecidableEq, Repr

/-- The graph handle (`gdf_graph`): three optional representations, the lazily
created properties record, and the cached vertex count (a C `int`). -/
structure GdfGraph where
  edgeList : Option GdfEdgeList
  adjList : Option GdfAdjList
  transposedAdjList : Option GdfAdjList
  prop : Option GdfGraphProperties
  numberOfVertices : Int
deriving DecidableEq, Repr

/-- Modelled from the spec: a Graph Handle is created empty (all representation
slots unset, no properties record, vertex count zero). -/
def emptyGdfGraph : GdfGraph :=
  { edgeList := none, adjList := none, transposedAdjList := none,
    prop := none, numberOfVertices := 0 }

/-- Modelled from the spec: cudf's `gdf_column_view(col, data, valid, size,
dtype)` fills a column descriptor with the given data pointer, size and dtype
and resets the null count. -/
def gdf_column_view (data : List Int) (size : Nat) (dtype : GdfDtype) : GdfColumn :=
  { data := data, size := size, dtype := dtype, null_count := 0 }

/-- Shallow copy of a column descriptor (`cpy_column_view` in the source):
forwards data, size and dtype through `gdf_column_view`. -/
def cpy_column_view (c : GdfColumn) : GdfColumn :=
  gdf_column_view c.data c.size c.dtype

/-- Modelled from the spec: `cugraph::detail::has_negative_val` (in
`utilities/graph_utils.cuh`, not under `src/`) — the negative-value scan
`exists x in array: x < 0` over the first `size` elements. -/
def has_negative_val (data : List Int) (size : Nat) : Bool :=
  (data.take size).any (fun x => x < 0)

/-- The six numeric kinds the dtype switch of the negative-value scan handles
explicitly (`GDF_INT8`, `GDF_INT16`, `GDF_INT32`, `GDF_INT64`, `GDF_FLOAT32`,
`GDF_FLOAT64`); every other tag falls to the switch's `default` branch. -/
def scanSupportedDtype (t : GdfDtype) : Bool :=
  match t with
  | GDF_INT8 => true
  | GDF_INT16 => true
  | GDF_INT32 => true
  | GDF_INT64 => true
  | GDF_FLOAT32 => true
  | GDF_FLOAT64 => true
  | _ => false

/-- The dtype switch both view functions run over `edge_data`: each of the six
supported kinds calls `has_negative_val` on the column's data (the casts only
select the element type, which the integer carrier absorbs); the `default`
branch yields `false` without scanning. -/
def negValScanSwitch (ed : GdfColumn) : Bool :=
  if scanSupportedDtype ed.dtype then has_negative_val ed.data ed.size else false

/-- Translation of `gdf_adj_list_view`. Failed `CUGRAPH_EXPECTS` checks return
the indicated error code with whatever state the handle has at that point
(modelled from the spec: `CUGRAPH_EXPECTS` lives in `utilities/error_utils.h`,
not under `src/`, and reports a typed failure to the caller; mutations already
performed stay in place). Note the `edge_data` size check runs only after
`graph->adjList` has been installed and `graph->prop` created. -/
def gdf_adj_list_view (graph : GdfGraph) (offsets indices : GdfColumn)
    (edge_data : Option GdfColumn) : GdfError × GdfGraph :=
  if ¬(graph.edgeList = none ∧ graph.adjList = none ∧ graph.transposedAdjList = none) then
    (GDF_INVALID_API_CALL, graph)
  else if ¬(offsets.null_count = 0) then (GDF_VALIDITY_UNSUPPORTED, graph)
  else if ¬(indices.null_count = 0) then (GDF_VALIDITY_UNSUPPORTED, graph)
  else if ¬(offsets.dtype = indices.dtype) then (GDF_UNSUPPORTED_DTYPE, graph)
  else if ¬(offsets.dtype = GDF_INT32) then (GDF_UNSUPPORTED_DTYPE, graph)
  else if ¬(offsets.size > 0) then (GDF_DATASET_EMPTY, graph)
  else
    let offCol := cpy_column_view offsets
    let idxCol := cpy_column_view indices
    let prop0 := graph.prop.getD { has_negative_edges := GDF_PROP_UNDEF }
    let graph1 := { graph with
      adjList := some { offsets := offCol, indices := idxCol, edge_data := none },
      prop := some prop0 }
    match edge_data with
    | some ed =>
      if ¬(indices.size = ed.size) then (GDF_COLUMN_SIZE_MISMATCH, graph1)
      else
        let edCol := cpy_column_view ed
        let has_neg := negValScanSwitch edCol
        (GDF_SUCCESS, { graph1 with
          adjList := some { offsets := offCol, indices := idxCol, edge_data := some edCol },
          prop := some { has_negative_edges :=
            if has_neg then GDF_PROP_TRUE else GDF_PROP_FALSE },
          numberOfVertices := (offCol.size : Int) - 1 })
    | none =>
      (GDF_SUCCESS, { graph1 with
        prop := some { has_negative_edges := GDF_PROP_FALSE },
        numberOfVertices := (offCol.size : Int) - 1 })

/-- Translation of `gdf_edge_list_view`.  The structural indexing check
(`cugraph::detail::indexing_check` in `utilities/validation.cuh`, not under
`src/`; the spec leaves its exact predicate open) is a parameter receiving the
stored source data, destination data and destination size; its status is the
function's return value, delivered after the edge list has been fully
installed. -/
def gdf_edge_list_view (indexing_check : List Int → List Int → Nat → GdfError)
    (graph : GdfGraph) (src_indices dest_indices : GdfColumn)
    (edge_data : Option GdfColumn) : GdfError × GdfGraph :=
  if ¬(graph.edgeList = none ∧ graph.adjList = none ∧ graph.transposedAdjList = none) then
    (GDF_INVALID_API_CALL, graph)
  else if ¬(src_indices.size = dest_indices.size) then (GDF_COLUMN_SIZE_MISMATCH, graph)
  else if ¬(src_indices.dtype = dest_indices.dtype) then (GDF_UNSUPPORTED_DTYPE, graph)
  else if ¬(src_indices.dtype = GDF_INT32) then (GDF_UNSUPPORTED_DTYPE, graph)
  else if ¬(src_indices.size > 0) then (GDF_DATASET_EMPTY, graph)
  else if ¬(src_indices.null_count = 0) then (GDF_VALIDITY_UNSUPPORTED, graph)
  else if ¬(dest_indices.null_count = 0) then (GDF_VALIDITY_UNSUPPORTED, graph)
  else
    let srcCol := cpy_column_view src_indices
    let destCol := cpy_column_view dest_indices
    let prop0 := graph.prop.getD { has_negative_edges := GDF_PROP_UNDEF }
    let graph1 := { graph with
      edgeList := some { src_indices := srcCol, dest_indices := destCol, edge_data := none },
      prop := some prop0 }
    match edge_data with
    | some ed =>
      if ¬(src_indices.size = ed.size) then (GDF_COLUMN_SIZE_MISMATCH, graph1)
      else
        let edCol := cpy_column_view ed
        let has_neg := negValScanSwitch edCol
        let graph2 := { graph1 with
          edgeList := some { src_indices := srcCol, dest_indices := destCol,
                             edge_data := some edCol },
          prop := some { has_negative_edges :=
            if has_neg then GDF_PROP_TRUE else GDF_PROP_FALSE } }
        (indexing_check srcCol.data destCol.data destCol.size, graph2)
    | none =>
      let graph2 := { graph1 with
        prop := some { has_negative_edges := GDF_PROP_FALSE } }
      (indexing_check srcCol.data destCol.data destCol.size, graph2)

/-- Result record of the unweighted converter (`CSR_Result<int>` of
`converters/COOtoCSR.cuh`). -/
structure CSR_Result where
  size : Nat
  nnz : Nat
  rowOffsets : List Int
  colIndices : List Int
deriving DecidableEq, Repr

/-- Result record of the weighted converter (`CSR_Result_Weighted`). -/
structure CSR_Result_Weighted where
  size : Nat
  nnz : Nat
  rowOffsets : List Int
  colIndices : List Int
  edgeWeights : List Int
deriving DecidableEq, Repr

/-- Modelled from the spec: the number of distinct vertices implied by the edge
set — one more than the largest vertex id occurring among the sources and
destinations. -/
def cooImpliedVertexCount (src dest : List Int) : Nat :=
  (((src ++ dest).foldl max (-1)) + 1).toNat

/-- Modelled from the spec: `ConvertCOOtoCSR` (in `converters/COOtoCSR.cuh`,
not under `src/`) — the unweighted Format Converter.  Groups the first `nnz`
edges by source vertex via a stable sort (original relative order of
equal-source edges preserved): `rowOffsets[i]` counts the edges whose source is
below `i`, and `colIndices` lists destinations bucket by bucket.  The returned
status (first component) is non-zero only on internal allocation failure,
which the model cannot exhibit, so it is always `0`. -/
def ConvertCOOtoCSR (srcPtr destPtr : List Int) (nnz : Nat) : Nat × CSR_Result :=
  let src := srcPtr.take nnz
  let dest := destPtr.take nnz
  let V := cooImpliedVertexCount src dest
  let pairs := src.zip dest
  let offs := (List.range (V + 1)).map
    (fun i => (Int.ofNat (pairs.countP (fun p => p.1 < Int.ofNat i))))
  let idxs := (List.range V).flatMap
    (fun v => pairs.filterMap (fun p => if p.1 = Int.ofNat v then some p.2 else none))
  (0, { size := V, nnz := nnz, rowOffsets := offs, colIndices := idxs })

/-- Modelled from the spec: `ConvertCOOtoCSR_weighted` — identical grouping,
with the weight array permuted exactly as the destination array so each weight
stays associated with its edge. -/
def ConvertCOOtoCSR_weighted (srcPtr destPtr wPtr : List Int) (nnz : Nat) :
    Nat × CSR_Result_Weighted :=
  let src := srcPtr.take nnz
  let dest := destPtr.take nnz
  let w := wPtr.take nnz
  let V := cooImpliedVertexCount src dest
  let triples := src.zip (dest.zip w)
  let offs := (List.range (V + 1)).map
    (fun i => (Int.ofNat (triples.countP (fun t => t.1 < Int.ofNat i))))
  let idxs := (List.range V).flatMap
    (fun v => triples.filterMap (fun t => if t.1 = Int.ofNat v then some t.2.1 else none))
  let ws := (List.range V).flatMap
    (fun v => triples.filterMap (fun t => if t.1 = Int.ofNat v then some t.2.2 else none))
  (0, { size := V, nnz := nnz, rowOffsets := offs, colIndices := idxs, edgeWeights := ws })

/-- Modelled from the spec: `cugraph::detail::offsets_to_indices` (in
`utilities/graph_utils.cuh`, not under `src/`) — expands an offset array over
`v` vertices into the per-edge source array: every position in the offset
range from `offsets[i]` to `offsets[i+1]` receives source `i`. -/
def offsets_to_indices (offsets : List Int) (v : Nat) : List Int :=
  (List.range v).flatMap (fun i =>
    List.replicate (((offsets.getD (i + 1) 0) - (offsets.getD i 0)).toNat) (Int.ofNat i))

/-- Translation of the template `gdf_add_adj_list_impl<T, WT>`.  The template
parameters merely select the compiled element types, which the integer value
carrier absorbs, so a single function serves every instantiation.  On a
converter failure the partially installed adjacency list stays in place and
`GDF_CUDA_ERROR` is returned (unreachable here since the modelled converter
always reports status `0`). -/
def gdf_add_adj_list_impl (graph : GdfGraph) : GdfError × GdfGraph :=
  match graph.adjList with
  | some _ => (GDF_SUCCESS, graph)
  | none =>
    match graph.edgeList with
    | none => (GDF_INVALID_API_CALL, graph)
    | some el =>
      let nnz := el.src_indices.size
      match el.edge_data with
      | some ed =>
        let conv := ConvertCOOtoCSR_weighted el.src_indices.data el.dest_indices.data
          ed.data nnz
        let adj := conv.2
        let offCol := gdf_column_view adj.rowOffsets (adj.size + 1) el.src_indices.dtype
        let idxCol := gdf_column_view adj.colIndices adj.nnz el.src_indices.dtype
        let edCol := gdf_column_view adj.edgeWeights adj.nnz ed.dtype
        let graph1 := { graph with
          adjList := some { offsets := offCol, indices := idxCol, edge_data := some edCol } }
        if ¬(conv.1 = 0) then (GDF_CUDA_ERROR, graph1)
        else (GDF_SUCCESS, { graph1 with numberOfVertices := (offCol.size : Int) - 1 })
      | none =>
        let conv := ConvertCOOtoCSR el.src_indices.data el.dest_indices.data nnz
        let adj := conv.2
        let offCol := gdf_column_view adj.rowOffsets (adj.size + 1) el.src_indices.dtype
        let idxCol := gdf_column_view adj.colIndices adj.nnz el.src_indices.dtype
        let graph1 := { graph with
          adjList := some { offsets := offCol, indices := idxCol, edge_data := none } }
        if ¬(conv.1 = 0) then (GDF_CUDA_ERROR, graph1)
        else (GDF_SUCCESS, { graph1 with numberOfVertices := (offCol.size : Int) - 1 })

/-- Translation of `gdf_add_edge_list`: derives an edge list from the
adjacency list by expanding the offsets into a per-edge source array and
reusing `indices` and `edge_data` as shallow views. -/
def gdf_add_edge_list (graph : GdfGraph) : GdfError × GdfGraph :=
  match graph.edgeList with
  | some _ => (GDF_SUCCESS, graph)
  | none =>
    match graph.adjList with
    | none => (GDF_INVALID_API_CALL, graph)
    | some al =>
      let d_src := offsets_to_indices al.offsets.data (al.offsets.size - 1)
      let srcCol := gdf_column_view d_src al.indices.size al.indices.dtype
      let destCol := cpy_column_view al.indices
      let edCol := al.edge_data.map cpy_column_view
      (GDF_SUCCESS, { graph with
        edgeList := some { src_indices := srcCol, dest_indices := destCol,
                           edge_data := edCol } })

/-- Translation of the template `gdf_add_transposed_adj_list_impl<WT>`:
identical to the forward derivation but passes `(dest, src)` — the swapped
index arrays — to the converter, filling the `transposedAdjList` slot. -/
def gdf_add_transposed_adj_list_impl (graph : GdfGraph) : GdfError × GdfGraph :=
  match graph.transposedAdjList with
  | some _ => (GDF_SUCCESS, graph)
  | none =>
    match graph.edgeList with
    | none => (GDF_INVALID_API_CALL, graph)
    | some el =>
      let nnz := el.src_indices.size
      match el.edge_data with
      | some ed =>
        let conv := ConvertCOOtoCSR_weighted el.dest_indices.data el.src_indices.data
          ed.data nnz
        let adj := conv.2
        let offCol := gdf_column_view adj.rowOffsets (adj.size + 1) el.src_indices.dtype
        let idxCol := gdf_column_view adj.colIndices adj.nnz el.src_indices.dtype
        let edCol := gdf_column_view adj.edgeWeights adj.nnz ed.dtype
        let graph1 := { graph with
          transposedAdjList :=
            some { offsets := offCol, indices := idxCol, edge_data := some edCol } }
        if ¬(conv.1 = 0) then (GDF_CUDA_ERROR, graph1)
        else (GDF_SUCCESS, { graph1 with numberOfVertices := (offCol.size : Int) - 1 })
      | none =>
        let conv := ConvertCOOtoCSR el.dest_indices.data el.src_indices.data nnz
        let adj := conv.2
        let offCol := gdf_column_view adj.rowOffsets (adj.size + 1) el.src_indices.dtype
        let idxCol := gdf_column_view adj.colIndices adj.nnz el.src_indices.dtype
        let graph1 := { graph with
          transposedAdjList :=
            some { offsets := offCol, indices := idxCol, edge_data := none } }
        if ¬(conv.1 = 0) then (GDF_CUDA_ERROR, graph1)
        else (GDF_SUCCESS, { graph1 with numberOfVertices := (offCol.size : Int) - 1 })

/-- Translation of `gdf_add_adj_list`: no-op when an adjacency list exists,
otherwise requires an edge list with int32 indices and dispatches on the
edge-weight dtype — only `GDF_FLOAT32` and `GDF_FLOAT64` reach the weighted
converter, every other weight dtype returns `GDF_UNSUPPORTED_DTYPE`. -/
def gdf_add_adj_list (graph : GdfGraph) : GdfError × GdfGraph :=
  match graph.adjList with
  | some _ => (GDF_SUCCESS, graph)
  | none =>
    match graph.edgeList with
    | none => (GDF_INVALID_API_CALL, graph)
    | some el =>
      if ¬(el.src_indices.dtype = GDF_INT32) then (GDF_UNSUPPORTED_DTYPE, graph)
      else
        match el.edge_data with
        | some ed =>
          match ed.dtype with
          | GDF_FLOAT32 => gdf_add_adj_list_impl graph
          | GDF_FLOAT64 => gdf_add_adj_list_impl graph
          | _ => (GDF_UNSUPPORTED_DTYPE, graph)
        | none => gdf_add_adj_list_impl graph

/-- Dtype checks and weight dispatch of `gdf_add_transposed_adj_list` (its
lines after the edge-list derivation), factored out with the edge list `el`
the source reads back from `graph->edgeList`: both index dtypes must be int32,
and only `GDF_FLOAT32` / `GDF_FLOAT64` edge weights reach the weighted
converter. -/
def gdf_add_transposed_adj_list_step (graph : GdfGraph) (el : GdfEdgeList) :
    GdfError × GdfGraph :=
  if ¬(el.src_indices.dtype = GDF_INT32) then (GDF_UNSUPPORTED_DTYPE, graph)
  else if ¬(el.dest_indices.dtype = GDF_INT32) then (GDF_UNSUPPORTED_DTYPE, graph)
  else
    match el.edge_data with
    | some ed =>
      match ed.dtype with
      | GDF_FLOAT32 => gdf_add_transposed_adj_list_impl graph
      | GDF_FLOAT64 => gdf_add_transposed_adj_list_impl graph
      | _ => (GDF_UNSUPPORTED_DTYPE, graph)
    | none => gdf_add_transposed_adj_list_impl graph

/-- Translation of `gdf_add_transposed_adj_list`.  When no edge list exists the
source first calls `gdf_add_edge_list` discarding its return value; a
`CUGRAPH_EXPECTS` failure inside that call propagates to the caller (modelled
from the spec, see `gdf_adj_list_view`), and `gdf_add_edge_list` returns
nothing but `GDF_SUCCESS` otherwise, so nothing is lost by the discard.  The
`none` fallback of the inner match is unreachable: after a successful
`gdf_add_edge_list` the edge-list slot is filled (in the source this line
dereferences `graph->edgeList` unconditionally). -/
def gdf_add_transposed_adj_list (graph : GdfGraph) : GdfError × GdfGraph :=
  let st := if graph.edgeList = none then gdf_add_edge_list graph else (GDF_SUCCESS, graph)
  if ¬(st.1 = GDF_SUCCESS) then st
  else
    match st.2.edgeList with
    | none => (GDF_CUDA_ERROR, st.2)
    | some el => gdf_add_transposed_adj_list_step st.2 el

/-- Translation of `gdf_delete_adj_list`. -/
def gdf_delete_adj_list (graph : GdfGraph) : GdfError × GdfGraph :=
  (GDF_SUCCESS, { graph with adjList := none })

/-- Translation of `gdf_delete_edge_list`. -/
def gdf_delete_edge_list (graph : GdfGraph) : GdfError × GdfGraph :=
  (GDF_SUCCESS, { graph with edgeList := none })

/-- Translation of `gdf_delete_transposed_adj_list`. -/
def gdf_delete_transposed_adj_list (graph : GdfGraph) : GdfError × GdfGraph :=
  (GDF_SUCCESS, { graph with transposedAdjList := none })

/-- Modelled from the spec: `cub::DeviceReduce::Max` over the first `n` int32
elements — a max reduction whose identity is the least int32 value. -/
def cubDeviceReduceMax (data : List Int) (n : Nat) : Int :=
  (data.take n).foldl max (-(2 ^ 31))

/-- Translation of `gdf_number_of_vertices`: returns at once when the cached
count is non-zero; otherwise requires an edge list with int32 sources, reduces
the source and destination arrays to their maxima (the destination reduction
is issued with `src_indices->size` as its length, exactly as in the source),
and caches `1 + max` of the two. -/
def gdf_number_of_vertices (graph : GdfGraph) : GdfError × GdfGraph :=
  if ¬(graph.numberOfVertices = 0) then (GDF_SUCCESS, graph)
  else
    match graph.edgeList with
    | none => (GDF_INVALID_API_CALL, graph)
    | some el =>
      if ¬(el.src_indices.dtype = GDF_INT32) then (GDF_UNSUPPORTED_DTYPE, graph)
      else
        let h0 := cubDeviceReduceMax el.src_indices.data el.src_indices.size
        let h1 := cubDeviceReduceMax el.dest_indices.data el.src_indices.size
        (GDF_SUCCESS, { graph with numberOfVertices := 1 + max h0 h1 })

/-- The edge list with the roles of `src` and `dest` exchanged — the
conversion input `gdf_add_transposed_adj_list` hands to the Format
Converter. -/
def swapEdgeList (el : GdfEdgeList) : GdfEdgeList :=
  { src_indices := el.dest_indices, dest_indices := el.src_indices,
    edge_data := el.edge_data }

/-- Offsets column of the adjacency-view scenario of the spec. -/
def scenarioOffsetsCol : GdfColumn :=
  { data := [0, 1, 1, 2], size := 4, dtype := GDF_INT32, null_count := 0 }

/-- Indices column of the adjacency-view scenario of the spec. -/
def scenarioIndicesCol : GdfColumn :=
  { data := [2, 0], size := 2, dtype := GDF_INT32, null_count := 0 }

/-- The handle produced by the scenario's adjacency-list view. -/
def scenarioViewResult : GdfError × GdfGraph :=
  gdf_adj_list_view emptyGdfGraph scenarioOffsetsCol scenarioIndicesCol none

/-- C7: on a fresh handle, the adjacency-list view with offsets `[0,1,1,2]`
and indices `[2,0]` and no edge data succeeds, sets the vertex count to 3 and
the negative-edge flag to false, and a subsequent `gdf_add_edge_list` succeeds
with derived sources `[0,2]` and destinations `[2,0]` viewed from `indices`. -/
theorem C7_adjacency_view_scenario :
    scenarioViewResult.1 = GDF_SUCCESS ∧
    scenarioViewResult.2.numberOfVertices = 3 ∧
    scenarioViewResult.2.prop = some { has_negative_edges := GDF_PROP_FALSE } ∧
    (gdf_add_edge_list scenarioViewResult.2).1 = GDF_SUCCESS ∧
    (gdf_add_edge_list scenarioViewResult.2).2.edgeList.map
      (fun el => (el.src_indices.data, el.dest_indices.data)) = some ([0, 2], [2, 0]) := by
  decide

/-- C5: `gdf_add_transposed_adj_list` on a handle holding neither an edge list
nor an adjacency list fails with `GDF_INVALID_API_CALL` (the failure raised
inside the nested `gdf_add_edge_list` call) and leaves the handle unchanged,
never reaching the converter. -/
theorem C5_transposed_add_without_source (g : GdfGraph)
    (hE : g.edgeList = none) (hA : g.adjList = none) :
    gdf_add_transposed_adj_list g = (GDF_INVALID_API_CALL, g) := by
  simp [gdf_add_transposed_adj_list, gdf_add_edge_list, hE, hA]

/-- Witness for C5 at the empty handle. -/
theorem C5_transposed_add_without_source_witness :
    gdf_add_transposed_adj_list emptyGdfGraph = (GDF_INVALID_API_CALL, emptyGdfGraph) :=
  C5_transposed_add_without_source emptyGdfGraph (by decide) (by decide)

/-- C9: the adjacency-list view validates only metadata — given an empty
handle, zero null counts, int32 dtypes, non-empty offsets and a matching
edge-data size, it succeeds whatever the buffer contents, with no check on
offset monotonicity or index ranges. -/
theorem C9_no_structural_validation (g : GdfGraph) (off idx : GdfColumn)
    (ed : Option GdfColumn)
    (hE : g.edgeList = none) (hA : g.adjList = none) (hT : g.transposedAdjList = none)
    (h1 : off.null_count = 0) (h2 : idx.null_count = 0)
    (h3 : off.dtype = GDF_INT32) (h4 : idx.dtype = GDF_INT32)
    (h5 : off.size > 0)
    (hed : ∀ e, ed = some e → idx.size = e.size) :
    (gdf_adj_list_view g off idx ed).1 = GDF_SUCCESS := by
  cases ed with
  | none => simp [gdf_adj_list_view, hE, hA, hT, h1, h2, h3, h4, h5]
  | some e =>
    have he := hed e rfl
    simp [gdf_adj_list_view, hE, hA, hT, h1, h2, h3, h4, h5, he]

/-- Witness for C9: non-monotone offsets and out-of-range, negative indices
are accepted. -/
theorem C9_no_structural_validation_witness :
    (gdf_adj_list_view emptyGdfGraph
      { data := [5, 2, -3], size := 3, dtype := GDF_INT32, null_count := 0 }
      { data := [99, -7], size := 2, dtype := GDF_INT32, null_count := 0 }
      (some { data := [1, 1], size := 2, dtype := GDF_FLOAT32, null_count := 0 })).1 =
    GDF_SUCCESS :=
  C9_no_structural_validation emptyGdfGraph
    { data := [5, 2, -3], size := 3, dtype := GDF_INT32, null_count := 0 }
    { data := [99, -7], size := 2, dtype := GDF_INT32, null_count := 0 }
    (some { data := [1, 1], size := 2, dtype := GDF_FLOAT32, null_count := 0 })
    (by decide) (by decide) (by decide) (by decide) (by decide) (by decide) (by decide)
    (by decide) (by intro e he; cases he; decide)

/-- C10: zero is the not-yet-computed sentinel of the cached vertex count.
First part: with a zero cache and no edge list, `gdf_number_of_vertices` fails
with `GDF_INVALID_API_CALL` even if an adjacency list is present.  Second
part: the adjacency-list view of a one-element offsets array — a zero-vertex
graph — caches exactly 0, installs the adjacency list, and the subsequent
count query fails rather than returning the cached zero. -/
theorem C10_zero_vertex_sentinel :
    (∀ g : GdfGraph, g.numberOfVertices = 0 → g.edgeList = none →
      gdf_number_of_vertices g = (GDF_INVALID_API_CALL, g)) ∧
    (∀ (g : GdfGraph) (off idx : GdfColumn),
      g.edgeList = none → g.adjList = none → g.transposedAdjList = none →
      off.null_count = 0 → idx.null_count = 0 →
      off.dtype = GDF_INT32 → idx.dtype = GDF_INT32 → off.size = 1 →
      (gdf_adj_list_view g off idx none).2.numberOfVertices = 0 ∧
      (gdf_adj_list_view g off idx none).2.adjList ≠ none ∧
      gdf_number_of_vertices (gdf_adj_list_view g off idx none).2 =
        (GDF_INVALID_API_CALL, (gdf_adj_list_view g off idx none).2)) := by
  constructor
  · intro g h0 hE
    simp [gdf_number_of_vertices, h0, hE]
  · intro g off idx hE hA hT h1 h2 h3 h4 h5
    have hres : gdf_adj_list_view g off idx none =
        (GDF_SUCCESS, { g with
          adjList := some { offsets := cpy_column_view off, indices := cpy_column_view idx,
                            edge_data := none },
          prop := some { has_negative_edges := GDF_PROP_FALSE },
          numberOfVertices := (off.size : Int) - 1 }) := by
      simp [gdf_adj_list_view, hE, hA, hT, h1, h2, h3, h4, h5, cpy_column_view,
        gdf_column_view]
    rw [hres]
    refine ⟨by simp [h5], by simp, ?_⟩
    simp [gdf_number_of_vertices, h5, hE]

/-- Witness for C10 at a concrete zero-vertex adjacency view. -/
theorem C10_zero_vertex_sentinel_witness :
    (gdf_adj_list_view emptyGdfGraph { data := [0], size := 1, dtype := GDF_INT32, null_count := 0 } { data := [], size := 0, dtype := GDF_INT32, null_count := 0 } none).2.numberOfVertices = 0 ∧
    gdf_number_of_vertices (gdf_adj_list_view emptyGdfGraph { data := [0], size := 1, dtype := GDF_INT32, null_count := 0 } { data := [], size := 0, dtype := GDF_INT32, null_count := 0 } none).2 =
      (GDF_INVALID_API_CALL, (gdf_adj_list_view emptyGdfGraph { data := [0], size := 1, dtype := GDF_INT32, null_count := 0 } { data := [], size := 0, dtype := GDF_INT32, null_count := 0 } none).2) :=
  ⟨(C10_zero_vertex_sentinel.2 emptyGdfGraph
      { data := [0], size := 1, dtype := GDF_INT32, null_count := 0 }
      { data := [], size := 0, dtype := GDF_INT32, null_count := 0 }
      (by decide) (by decide) (by decide) (by decide) (by decide) (by decide) (by decide)
      (by decide)).1,
   (C10_zero_vertex_sentinel.2 emptyGdfGraph
      { data := [0], size := 1, dtype := GDF_INT32, null_count := 0 }
      { data := [], size := 0, dtype := GDF_INT32, null_count := 0 }
      (by decide) (by decide) (by decide) (by decide) (by decide) (by decide) (by decide)
      (by decide)).2.2⟩

/-- C4: mutual exclusion of the view calls.  Both views fail with
`GDF_INVALID_API_CALL` and change nothing when any representation is present;
on an empty handle whose buffers meet the dtype, null-count and size
preconditions (and, for the edge-list view, whose indexing check passes) the
view succeeds and installs exactly its own representation. -/
theorem C4_view_mutual_exclusion :
    (∀ (g : GdfGraph) (off idx : GdfColumn) (ed : Option GdfColumn),
      ¬(g.edgeList = none ∧ g.adjList = none ∧ g.transposedAdjList = none) →
      gdf_adj_list_view g off idx ed = (GDF_INVALID_API_CALL, g)) ∧
    (∀ (ic : List Int → List Int → Nat → GdfError) (g : GdfGraph)
        (src dest : GdfColumn) (ed : Option GdfColumn),
      ¬(g.edgeList = none ∧ g.adjList = none ∧ g.transposedAdjList = none) →
      gdf_edge_list_view ic g src dest ed = (GDF_INVALID_API_CALL, g)) ∧
    (∀ (g : GdfGraph) (off idx : GdfColumn) (ed : Option GdfColumn),
      g.edgeList = none → g.adjList = none → g.transposedAdjList = none →
      off.null_count = 0 → idx.null_count = 0 →
      off.dtype = GDF_INT32 → idx.dtype = GDF_INT32 → off.size > 0 →
      (∀ e, ed = some e → idx.size = e.size) →
      (gdf_adj_list_view g off idx ed).1 = GDF_SUCCESS ∧
      (gdf_adj_list_view g off idx ed).2.adjList ≠ none ∧
      (gdf_adj_list_view g off idx ed).2.edgeList = none ∧
      (gdf_adj_list_view g off idx ed).2.transposedAdjList = none) ∧
    (∀ (ic : List Int → List Int → Nat → GdfError) (g : GdfGraph)
        (src dest : GdfColumn) (ed : Option GdfColumn),
      g.edgeList = none → g.adjList = none → g.transposedAdjList = none →
      src.size = dest.size → src.dtype = GDF_INT32 → dest.dtype = GDF_INT32 →
      src.size > 0 → src.null_count = 0 → dest.null_count = 0 →
      (∀ e, ed = some e → src.size = e.size) →
      ic src.data dest.data dest.size = GDF_SUCCESS →
      (gdf_edge_list_view ic g src dest ed).1 = GDF_SUCCESS ∧
      (gdf_edge_list_view ic g src dest ed).2.edgeList ≠ none ∧
      (gdf_edge_list_view ic g src dest ed).2.adjList = none ∧
      (gdf_edge_list_view ic g src dest ed).2.transposedAdjList = none) := by
  refine ⟨?_, ?_, ?_, ?_⟩
  · intro g off idx ed h
    simp only [gdf_adj_list_view, if_pos h]
  · intro ic g src dest ed h
    simp only [gdf_edge_list_view, if_pos h]
  · intro g off idx ed hE hA hT h1 h2 h3 h4 h5 hed
    cases ed with
    | none => simp [gdf_adj_list_view, hE, hA, hT, h1, h2, h3, h4, h5]
    | some e =>
      have he := hed e rfl
      simp [gdf_adj_list_view, hE, hA, hT, h1, h2, h3, h4, h5, he]
  · intro ic g src dest ed hE hA hT hs h3 h4 h5 h1 h2 hed hic
    have h5d : dest.size ≠ 0 := by omega
    cases ed with
    | none =>
      simp [gdf_edge_list_view, hE, hA, hT, hs, h3, h4, h5, h5d, h1, h2,
        cpy_column_view, gdf_column_view, hic]
    | some e =>
      have he := hed e rfl
      have hde : dest.size = e.size := hs ▸ he
      have h5e : e.size ≠ 0 := hde ▸ h5d
      have hice : ic src.data dest.data e.size = GDF_SUCCESS := hde ▸ hic
      simp [gdf_edge_list_view, hE, hA, hT, hs, h3, h4, h5, h5d, h5e, hde, h1, h2, he,
        cpy_column_view, gdf_column_view, hic, hice]

/-- Witness for C4: a handle already holding an adjacency list rejects the
edge-list view, while the empty handle accepts it. -/
theorem C4_view_mutual_exclusion_witness :
    gdf_edge_list_view (fun _ _ _ => GDF_SUCCESS)
        (gdf_adj_list_view emptyGdfGraph scenarioOffsetsCol scenarioIndicesCol none).2
        { data := [0], size := 1, dtype := GDF_INT32, null_count := 0 }
        { data := [1], size := 1, dtype := GDF_INT32, null_count := 0 } none =
      (GDF_INVALID_API_CALL,
        (gdf_adj_list_view emptyGdfGraph scenarioOffsetsCol scenarioIndicesCol none).2) ∧
    (gdf_edge_list_view (fun _ _ _ => GDF_SUCCESS) emptyGdfGraph
        { data := [0], size := 1, dtype := GDF_INT32, null_count := 0 }
        { data := [1], size := 1, dtype := GDF_INT32, null_count := 0 } none).1 =
      GDF_SUCCESS := by
  constructor
  · exact C4_view_mutual_exclusion.2.1 _ _ _ _ _ (by decide)
  · exact (C4_view_mutual_exclusion.2.2.2 (fun _ _ _ => GDF_SUCCESS) emptyGdfGraph
      { data := [0], size := 1, dtype := GDF_INT32, null_count := 0 }
      { data := [1], size := 1, dtype := GDF_INT32, null_count := 0 } none
      (by decide) (by decide) (by decide) (by decide) (by decide) (by decide) (by decide)
      (by decide) (by decide) (by decide) rfl).1

theorem gdf_add_transposed_adj_list_of_edgeList_some (g : GdfGraph) (el : GdfEdgeList)
    (hE : g.edgeList = some el) :
    gdf_add_transposed_adj_list g = gdf_add_transposed_adj_list_step g el := by
  simp [gdf_add_transposed_adj_list, hE]

theorem gdf_add_transposed_adj_list_impl_fst (g : GdfGraph) (el : GdfEdgeList)
    (hE : g.edgeList = some el) :
    (gdf_add_transposed_adj_list_impl g).1 = GDF_SUCCESS := by
  unfold gdf_add_transposed_adj_list_impl
  split
  · rfl
  · split
    · simp_all
    · split
      · simp [ConvertCOOtoCSR_weighted]
      · simp [ConvertCOOtoCSR]

theorem gdf_add_adj_list_impl_fst (g : GdfGraph) (el : GdfEdgeList)
    (hE : g.edgeList = some el) :
    (gdf_add_adj_list_impl g).1 = GDF_SUCCESS := by
  unfold gdf_add_adj_list_impl
  split
  · rfl
  · split
    · simp_all
    · split
      · simp [ConvertCOOtoCSR_weighted]
      · simp [ConvertCOOtoCSR]

theorem gdf_add_adj_list_cases (g : GdfGraph) :
    (gdf_add_adj_list g).1 = GDF_SUCCESS ∨
    gdf_add_adj_list g = (GDF_INVALID_API_CALL, g) ∨
    gdf_add_adj_list g = (GDF_UNSUPPORTED_DTYPE, g) := by
  unfold gdf_add_adj_list
  split
  · left; rfl
  · split
    · right; left; rfl
    · rename_i el hE
      split_ifs
      · split
        · split
          · left; exact gdf_add_adj_list_impl_fst g el hE
          · left; exact gdf_add_adj_list_impl_fst g el hE
          · right; right; rfl
        · left; exact gdf_add_adj_list_impl_fst g el hE
      · right; right; rfl

theorem gdf_add_transposed_adj_list_step_cases (g : GdfGraph) (el : GdfEdgeList)
    (hE : g.edgeList = some el) :
    (gdf_add_transposed_adj_list_step g el).1 = GDF_SUCCESS ∨
    gdf_add_transposed_adj_list_step g el = (GDF_UNSUPPORTED_DTYPE, g) := by
  unfold gdf_add_transposed_adj_list_step
  split_ifs
  · split
    · split
      · left; exact gdf_add_transposed_adj_list_impl_fst g el hE
      · left; exact gdf_add_transposed_adj_list_impl_fst g el hE
      · right; rfl
    · left; exact gdf_add_transposed_adj_list_impl_fst g el hE
  · right; rfl
  · right; rfl

/-- Counterexample to C1: an adjacency-list view whose `edge_data` size does
not match `indices` fails with `GDF_COLUMN_SIZE_MISMATCH`, yet the failed call
has already installed the adjacency list — the handle is not what it was
before the call. -/
theorem C1_counterexample :
    (gdf_adj_list_view emptyGdfGraph
        { data := [0, 1], size := 2, dtype := GDF_INT32, null_count := 0 }
        { data := [0], size := 1, dtype := GDF_INT32, null_count := 0 }
        (some { data := [1, 2], size := 2, dtype := GDF_FLOAT32, null_count := 0 })).1 =
      GDF_COLUMN_SIZE_MISMATCH ∧
    (gdf_adj_list_view emptyGdfGraph
        { data := [0, 1], size := 2, dtype := GDF_INT32, null_count := 0 }
        { data := [0], size := 1, dtype := GDF_INT32, null_count := 0 }
        (some { data := [1, 2], size := 2, dtype := GDF_FLOAT32, null_count := 0 })).2.adjList ≠
      none := by
  decide

set_option maxHeartbeats 2000000 in
/-- C1 as amended: a failed view or add call leaves the handle unchanged only
when the failure comes from the precondition checks run before installation
begins.  Contrapositively: the handle changes only on success, on the
`edge_data` size-mismatch failure of a view (checked after the representation
is installed), or on an edge-list-view indexing-check failure (delivered after
installation); a failed `gdf_add_adj_list` never mutates, and a failed
`gdf_add_transposed_adj_list` mutates only by the prior edge-list derivation
performed when the handle held just an adjacency list. -/
theorem C1_mutation_only_on_late_failure :
    (∀ (g : GdfGraph) (off idx : GdfColumn) (ed : Option GdfColumn),
      (gdf_adj_list_view g off idx ed).2 ≠ g →
      (gdf_adj_list_view g off idx ed).1 = GDF_SUCCESS ∨
      (gdf_adj_list_view g off idx ed).1 = GDF_COLUMN_SIZE_MISMATCH) ∧
    (∀ (ic : List Int → List Int → Nat → GdfError) (g : GdfGraph)
        (src dest : GdfColumn) (ed : Option GdfColumn),
      (gdf_edge_list_view ic g src dest ed).2 ≠ g →
      (gdf_edge_list_view ic g src dest ed).1 = GDF_COLUMN_SIZE_MISMATCH ∨
      (gdf_edge_list_view ic g src dest ed).1 = ic src.data dest.data dest.size) ∧
    (∀ g : GdfGraph, (gdf_add_adj_list g).2 ≠ g → (gdf_add_adj_list g).1 = GDF_SUCCESS) ∧
    (∀ g : GdfGraph, (gdf_add_transposed_adj_list g).2 ≠ g →
      (gdf_add_transposed_adj_list g).1 = GDF_SUCCESS ∨
      (g.edgeList = none ∧ g.adjList ≠ none)) := by
  refine ⟨?_, ?_, ?_, ?_⟩
  · intro g off idx ed
    cases ed with
    | none =>
      simp only [gdf_adj_list_view]
      split_ifs <;> simp
    | some e =>
      simp only [gdf_adj_list_view]
      split_ifs <;> simp
  · intro ic g src dest ed
    cases ed with
    | none =>
      simp only [gdf_edge_list_view]
      split_ifs <;> simp [cpy_column_view, gdf_column_view]
    | some e =>
      simp only [gdf_edge_list_view]
      split_ifs <;> simp [cpy_column_view, gdf_column_view]
  · intro g h
    rcases gdf_add_adj_list_cases g with hs | hu | hu
    · exact hs
    · rw [hu] at h; exact absurd rfl h
    · rw [hu] at h; exact absurd rfl h
  · intro g
    cases hE : g.edgeList with
    | none =>
      cases hA : g.adjList with
      | none => simp [gdf_add_transposed_adj_list, gdf_add_edge_list, hE, hA]
      | some al =>
        intro _
        right
        exact ⟨rfl, by simp⟩
    | some el =>
      intro h
      left
      rw [gdf_add_transposed_adj_list_of_edgeList_some g el hE] at h ⊢
      rcases gdf_add_transposed_adj_list_step_cases g el hE with hs | hu
      · exact hs
      · rw [hu] at h
        exact absurd rfl h

/-- Witness for C1 amended: a successful adjacency view changes the handle,
and the implication then pins its status among the allowed ones. -/
theorem C1_mutation_only_on_late_failure_witness :
    (gdf_adj_list_view emptyGdfGraph scenarioOffsetsCol scenarioIndicesCol none).2 ≠
      emptyGdfGraph ∧
    ((gdf_adj_list_view emptyGdfGraph scenarioOffsetsCol scenarioIndicesCol none).1 =
        GDF_SUCCESS ∨
      (gdf_adj_list_view emptyGdfGraph scenarioOffsetsCol scenarioIndicesCol none).1 =
        GDF_COLUMN_SIZE_MISMATCH) :=
  ⟨by decide, C1_mutation_only_on_late_failure.1 emptyGdfGraph
    scenarioOffsetsCol scenarioIndicesCol none (by decide)⟩

/-- Counterexample to C2: an edge list with `GDF_INT32` weights — one of the
six kinds the spec lists as supported — is rejected by `gdf_add_adj_list` with
`GDF_UNSUPPORTED_DTYPE`: the dispatch switch covers only the two floating
kinds. -/
theorem C2_counterexample :
    gdf_add_adj_list
        { edgeList := some
            { src_indices := { data := [0], size := 1, dtype := GDF_INT32, null_count := 0 },
              dest_indices := { data := [1], size := 1, dtype := GDF_INT32, null_count := 0 },
              edge_data := some { data := [5], size := 1, dtype := GDF_INT32, null_count := 0 } },
          adjList := none, transposedAdjList := none, prop := none, numberOfVertices := 0 } =
      (GDF_UNSUPPORTED_DTYPE,
        { edgeList := some
            { src_indices := { data := [0], size := 1, dtype := GDF_INT32, null_count := 0 },
              dest_indices := { data := [1], size := 1, dtype := GDF_INT32, null_count := 0 },
              edge_data := some { data := [5], size := 1, dtype := GDF_INT32, null_count := 0 } },
          adjList := none, transposedAdjList := none, prop := none, numberOfVertices := 0 }) := by
  decide

/-- C2 as amended: with an edge list of int32 indices and weights present,
`gdf_add_adj_list` and `gdf_add_transposed_adj_list` dispatch to the weighted
converter — and succeed — exactly when the weight dtype is `GDF_FLOAT32` or
`GDF_FLOAT64`; every other weight kind, the four signed-integer kinds
included, returns `GDF_UNSUPPORTED_DTYPE` with the handle unchanged. -/
theorem C2_weight_dispatch :
    (∀ (g : GdfGraph) (el : GdfEdgeList) (ed : GdfColumn),
      g.adjList = none → g.edgeList = some el →
      el.src_indices.dtype = GDF_INT32 → el.edge_data = some ed →
      ((ed.dtype = GDF_FLOAT32 ∨ ed.dtype = GDF_FLOAT64) →
        (gdf_add_adj_list g).1 = GDF_SUCCESS) ∧
      (¬(ed.dtype = GDF_FLOAT32 ∨ ed.dtype = GDF_FLOAT64) →
        gdf_add_adj_list g = (GDF_UNSUPPORTED_DTYPE, g))) ∧
    (∀ (g : GdfGraph) (el : GdfEdgeList) (ed : GdfColumn),
      g.transposedAdjList = none → g.edgeList = some el →
      el.src_indices.dtype = GDF_INT32 → el.dest_indices.dtype = GDF_INT32 →
      el.edge_data = some ed →
      ((ed.dtype = GDF_FLOAT32 ∨ ed.dtype = GDF_FLOAT64) →
        (gdf_add_transposed_adj_list g).1 = GDF_SUCCESS) ∧
      (¬(ed.dtype = GDF_FLOAT32 ∨ ed.dtype = GDF_FLOAT64) →
        gdf_add_transposed_adj_list g = (GDF_UNSUPPORTED_DTYPE, g))) := by
  constructor
  · intro g el ed hA hE h1 hed
    constructor
    · intro hf
      have hstep : gdf_add_adj_list g = gdf_add_adj_list_impl g := by
        rcases hf with hd | hd <;> simp [gdf_add_adj_list, hA, hE, h1, hed, hd]
      rw [hstep]
      exact gdf_add_adj_list_impl_fst g el hE
    · intro hnf
      cases hd : ed.dtype <;>
        first
          | (exact absurd (Or.inl hd) hnf)
          | (exact absurd (Or.inr hd) hnf)
          | simp [gdf_add_adj_list, hA, hE, h1, hed, hd]
  · intro g el ed hT hE h1 h2 hed
    have hstep := gdf_add_transposed_adj_list_of_edgeList_some g el hE
    constructor
    · intro hf
      have hstep2 : gdf_add_transposed_adj_list_step g el =
          gdf_add_transposed_adj_list_impl g := by
        rcases hf with hd | hd <;>
          simp [gdf_add_transposed_adj_list_step, h1, h2, hed, hd]
      rw [hstep, hstep2]
      exact gdf_add_transposed_adj_list_impl_fst g el hE
    · intro hnf
      rw [hstep]
      cases hd : ed.dtype <;>
        first
          | (exact absurd (Or.inl hd) hnf)
          | (exact absurd (Or.inr hd) hnf)
          | simp [gdf_add_transposed_adj_list_step, h1, h2, hed, hd]

/-- Witness for C2 amended: float32 weights convert, int8 weights are
rejected. -/
theorem C2_weight_dispatch_witness :
    (gdf_add_adj_list
        { edgeList := some
            { src_indices := { data := [0], size := 1, dtype := GDF_INT32, null_count := 0 },
              dest_indices := { data := [1], size := 1, dtype := GDF_INT32, null_count := 0 },
              edge_data := some { data := [2], size := 1, dtype := GDF_FLOAT32, null_count := 0 } },
          adjList := none, transposedAdjList := none, prop := none,
          numberOfVertices := 0 }).1 = GDF_SUCCESS ∧
    gdf_add_transposed_adj_list
        { edgeList := some
            { src_indices := { data := [0], size := 1, dtype := GDF_INT32, null_count := 0 },
              dest_indices := { data := [1], size := 1, dtype := GDF_INT32, null_count := 0 },
              edge_data := some { data := [2], size := 1, dtype := GDF_INT8, null_count := 0 } },
          adjList := none, transposedAdjList := none, prop := none, numberOfVertices := 0 } =
      (GDF_UNSUPPORTED_DTYPE,
        { edgeList := some
            { src_indices := { data := [0], size := 1, dtype := GDF_INT32, null_count := 0 },
              dest_indices := { data := [1], size := 1, dtype := GDF_INT32, null_count := 0 },
              edge_data := some { data := [2], size := 1, dtype := GDF_INT8, null_count := 0 } },
          adjList := none, transposedAdjList := none, prop := none, numberOfVertices := 0 }) :=
  ⟨(C2_weight_dispatch.1 _ _ _ rfl rfl rfl rfl).1 (Or.inl rfl),
   (C2_weight_dispatch.2 _ _ _ rfl rfl rfl rfl rfl).2 (by decide)⟩

/-- Counterexample to C3: an adjacency-list view given weights of the
unrecognized kind `GDF_DATE32` holding a negative value succeeds — it does not
fail with `GDF_UNSUPPORTED_DTYPE` — and records `has_negative_edges` as false
even though the scan, had it run, would have found the negative entry. -/
theorem C3_counterexample :
    (gdf_adj_list_view emptyGdfGraph
        { data := [0, 1], size := 2, dtype := GDF_INT32, null_count := 0 }
        { data := [0], size := 1, dtype := GDF_INT32, null_count := 0 }
        (some { data := [-7], size := 1, dtype := GDF_DATE32, null_count := 0 })).1 =
      GDF_SUCCESS ∧
    (gdf_adj_list_view emptyGdfGraph
        { data := [0, 1], size := 2, dtype := GDF_INT32, null_count := 0 }
        { data := [0], size := 1, dtype := GDF_INT32, null_count := 0 }
        (some { data := [-7], size := 1, dtype := GDF_DATE32, null_count := 0 })).2.prop =
      some { has_negative_edges := GDF_PROP_FALSE } ∧
    has_negative_val [-7] 1 = true := by
  decide

/-- C3 as amended: a view call whose `edge_data` dtype is outside the six
scanned kinds does not fail — it succeeds (for the edge-list view, subject to
the indexing check), keeps the weights column installed rather than treating
it as absent, and silently sets `has_negative_edges` to false without
scanning. -/
theorem C3_unrecognized_weight_kind :
    (∀ (g : GdfGraph) (off idx ed : GdfColumn),
      g.edgeList = none → g.adjList = none → g.transposedAdjList = none →
      off.null_count = 0 → idx.null_count = 0 →
      off.dtype = GDF_INT32 → idx.dtype = GDF_INT32 → off.size > 0 →
      idx.size = ed.size → scanSupportedDtype ed.dtype = false →
      (gdf_adj_list_view g off idx (some ed)).1 = GDF_SUCCESS ∧
      (gdf_adj_list_view g off idx (some ed)).2.prop =
        some { has_negative_edges := GDF_PROP_FALSE } ∧
      (gdf_adj_list_view g off idx (some ed)).2.adjList =
        some { offsets := cpy_column_view off, indices := cpy_column_view idx,
               edge_data := some (cpy_column_view ed) }) ∧
    (∀ (ic : List Int → List Int → Nat → GdfError) (g : GdfGraph)
        (src dest ed : GdfColumn),
      g.edgeList = none → g.adjList = none → g.transposedAdjList = none →
      src.size = dest.size → src.dtype = GDF_INT32 → dest.dtype = GDF_INT32 →
      src.size > 0 → src.null_count = 0 → dest.null_count = 0 →
      src.size = ed.size → scanSupportedDtype ed.dtype = false →
      (gdf_edge_list_view ic g src dest (some ed)).1 =
        ic src.data dest.data dest.size ∧
      (gdf_edge_list_view ic g src dest (some ed)).2.prop =
        some { has_negative_edges := GDF_PROP_FALSE } ∧
      (gdf_edge_list_view ic g src dest (some ed)).2.edgeList =
        some { src_indices := cpy_column_view src, dest_indices := cpy_column_view dest,
               edge_data := some (cpy_column_view ed) }) := by
  constructor
  · intro g off idx ed hE hA hT h1 h2 h3 h4 h5 hsz hscan
    simp [gdf_adj_list_view, hE, hA, hT, h1, h2, h3, h4, h5, hsz,
      negValScanSwitch, cpy_column_view, gdf_column_view, hscan]
  · intro ic g src dest ed hE hA hT hs h3 h4 h5 h1 h2 hsz hscan
    have h5d : dest.size ≠ 0 := by omega
    have hde : dest.size = ed.size := hs ▸ hsz
    have hice : ic src.data dest.data ed.size = ic src.data dest.data dest.size := by
      rw [hde]
    have h5e : ed.size ≠ 0 := hde ▸ h5d
    simp [gdf_edge_list_view, hE, hA, hT, hs, h3, h4, h5, h5d, h5e, hde, h1, h2, hsz,
      negValScanSwitch, cpy_column_view, gdf_column_view, hscan, hice]

/-- Witness for C3 amended at a concrete `GDF_STRING`-typed weights column. -/
theorem C3_unrecognized_weight_kind_witness :
    (gdf_adj_list_view emptyGdfGraph
        { data := [0, 1], size := 2, dtype := GDF_INT32, null_count := 0 }
        { data := [0], size := 1, dtype := GDF_INT32, null_count := 0 }
        (some { data := [-3], size := 1, dtype := GDF_STRING, null_count := 0 })).1 =
      GDF_SUCCESS ∧
    (gdf_adj_list_view emptyGdfGraph
        { data := [0, 1], size := 2, dtype := GDF_INT32, null_count := 0 }
        { data := [0], size := 1, dtype := GDF_INT32, null_count := 0 }
        (some { data := [-3], size := 1, dtype := GDF_STRING, null_count := 0 })).2.prop =
      some { has_negative_edges := GDF_PROP_FALSE } :=
  ⟨((C3_unrecognized_weight_kind.1 emptyGdfGraph
      { data := [0, 1], size := 2, dtype := GDF_INT32, null_count := 0 }
      { data := [0], size := 1, dtype := GDF_INT32, null_count := 0 }
      { data := [-3], size := 1, dtype := GDF_STRING, null_count := 0 }
      rfl rfl rfl rfl rfl rfl rfl (by decide) rfl rfl)).1,
   ((C3_unrecognized_weight_kind.1 emptyGdfGraph
      { data := [0, 1], size := 2, dtype := GDF_INT32, null_count := 0 }
      { data := [0], size := 1, dtype := GDF_INT32, null_count := 0 }
      { data := [-3], size := 1, dtype := GDF_STRING, null_count := 0 }
      rfl rfl rfl rfl rfl rfl rfl (by decide) rfl rfl)).2.1⟩

theorem foldl_max_init_comm (l : List Int) (m x : Int) :
    l.foldl max (max m x) = max m (l.foldl max x) := by
  induction l generalizing x with
  | nil => simp
  | cons y ys ih =>
    simp only [List.foldl_cons]
    rw [max_assoc]
    exact ih (max x y)

theorem foldl_max_eq_of_max? (l : List Int) (a m : Int)
    (h : l.max? = some a) (hm : m ≤ a) : l.foldl max m = a := by
  cases l with
  | nil => simp [List.max?] at h
  | cons x xs =>
    have ha : xs.foldl max x = a := Option.some.inj h
    simp only [List.foldl_cons]
    rw [foldl_max_init_comm, ha]
    exact max_eq_right hm

/-- C6: `gdf_number_of_vertices` returns the cached count unchanged when it is
non-zero; with a zero cache it requires an edge list (`GDF_INVALID_API_CALL`
otherwise) of int32 sources (`GDF_UNSUPPORTED_DTYPE` otherwise), and under the
edge-list size invariants computes and caches one plus the larger of the two
array maxima. -/
theorem C6_number_of_vertices :
    (∀ g : GdfGraph, g.numberOfVertices ≠ 0 →
      gdf_number_of_vertices g = (GDF_SUCCESS, g)) ∧
    (∀ g : GdfGraph, g.numberOfVertices = 0 → g.edgeList = none →
      gdf_number_of_vertices g = (GDF_INVALID_API_CALL, g)) ∧
    (∀ (g : GdfGraph) (el : GdfEdgeList), g.numberOfVertices = 0 →
      g.edgeList = some el → el.src_indices.dtype ≠ GDF_INT32 →
      gdf_number_of_vertices g = (GDF_UNSUPPORTED_DTYPE, g)) ∧
    (∀ (g : GdfGraph) (el : GdfEdgeList) (a b : Int),
      g.numberOfVertices = 0 → g.edgeList = some el →
      el.src_indices.dtype = GDF_INT32 →
      el.src_indices.size = el.src_indices.data.length →
      el.dest_indices.size = el.src_indices.size →
      el.dest_indices.data.length = el.dest_indices.size →
      el.src_indices.data.max? = some a →
      el.dest_indices.data.max? = some b →
      (∀ x ∈ el.src_indices.data, -(2 ^ 31) ≤ x) →
      (∀ x ∈ el.dest_indices.data, -(2 ^ 31) ≤ x) →
      gdf_number_of_vertices g =
        (GDF_SUCCESS, { g with numberOfVertices := 1 + max a b })) := by
  refine ⟨?_, ?_, ?_, ?_⟩
  · intro g h0
    simp [gdf_number_of_vertices, h0]
  · intro g h0 hE
    simp [gdf_number_of_vertices, h0, hE]
  · intro g el h0 hE h1
    simp [gdf_number_of_vertices, h0, hE, h1]
  · intro g el a b h0 hE h1 hsz1 hsz2 hsz3 hma hmb hba hbb
    have hA2 : -(2 ^ 31) ≤ a := hba a (List.max?_mem max_choice hma)
    have hB2 : -(2 ^ 31) ≤ b := hbb b (List.max?_mem max_choice hmb)
    have e1 : cubDeviceReduceMax el.src_indices.data el.src_indices.size = a := by
      unfold cubDeviceReduceMax
      rw [hsz1, List.take_length]
      exact foldl_max_eq_of_max? _ a _ hma hA2
    have e2 : cubDeviceReduceMax el.dest_indices.data el.src_indices.size = b := by
      unfold cubDeviceReduceMax
      have hlen : el.src_indices.size = el.dest_indices.data.length :=
        (hsz3.trans hsz2).symm
      rw [hlen, List.take_length]
      exact foldl_max_eq_of_max? _ b _ hmb hB2
    simp [gdf_number_of_vertices, h0, hE, h1, e1, e2]

/-- Witness for C6: the vertex count of the edge set `{(0,1),(2,1)}` is
computed as `1 + max 2 1 = 3` and cached; a non-zero cache is returned
unchanged. -/
theorem C6_number_of_vertices_witness :
    gdf_number_of_vertices
        { edgeList := some
            { src_indices := { data := [0, 2], size := 2, dtype := GDF_INT32, null_count := 0 },
              dest_indices := { data := [1, 1], size := 2, dtype := GDF_INT32, null_count := 0 },
              edge_data := none },
          adjList := none, transposedAdjList := none, prop := none, numberOfVertices := 0 } =
      (GDF_SUCCESS,
        { edgeList := some
            { src_indices := { data := [0, 2], size := 2, dtype := GDF_INT32, null_count := 0 },
              dest_indices := { data := [1, 1], size := 2, dtype := GDF_INT32, null_count := 0 },
              edge_data := none },
          adjList := none, transposedAdjList := none, prop := none,
          numberOfVertices := 1 + max 2 1 }) ∧
    gdf_number_of_vertices
        { edgeList := none, adjList := none, transposedAdjList := none, prop := none,
          numberOfVertices := 7 } =
      (GDF_SUCCESS,
        { edgeList := none, adjList := none, transposedAdjList := none, prop := none,
          numberOfVertices := 7 }) :=
  ⟨C6_number_of_vertices.2.2.2 _ _ 2 1 rfl rfl rfl rfl rfl rfl rfl rfl
      (by decide) (by decide),
   C6_number_of_vertices.1 _ (by decide)⟩

/-- C8: a successful `gdf_add_transposed_adj_list` equals the Format Converter
run on the swapped pair `(dest, src)` — its transposed adjacency list is
exactly the forward adjacency list `gdf_add_adj_list` builds for the edge list
with sources and destinations exchanged — and when the handle holds only an
adjacency list, an edge list is first derived from it and the call proceeds as
if that derived edge list had been there all along. -/
theorem C8_transpose_swaps_conversion_input :
    (∀ (g : GdfGraph) (el : GdfEdgeList),
      g.edgeList = some el → g.transposedAdjList = none →
      el.src_indices.dtype = GDF_INT32 → el.dest_indices.dtype = GDF_INT32 →
      el.src_indices.size = el.dest_indices.size →
      (el.edge_data = none ∨ ∃ ed, el.edge_data = some ed ∧
        (ed.dtype = GDF_FLOAT32 ∨ ed.dtype = GDF_FLOAT64)) →
      (gdf_add_transposed_adj_list g).1 = GDF_SUCCESS ∧
      (gdf_add_transposed_adj_list g).2.transposedAdjList =
        (gdf_add_adj_list
          { edgeList := some (swapEdgeList el), adjList := none,
            transposedAdjList := none, prop := none, numberOfVertices := 0 }).2.adjList) ∧
    (∀ g : GdfGraph, g.edgeList = none → g.adjList ≠ none →
      gdf_add_transposed_adj_list g = gdf_add_transposed_adj_list (gdf_add_edge_list g).2) := by
  constructor
  · intro g el hE hT h1 h2 hsz hw
    have hstep2 : gdf_add_transposed_adj_list_step g el =
        gdf_add_transposed_adj_list_impl g := by
      rcases hw with hedn | ⟨ed, hed, hdt⟩
      · simp [gdf_add_transposed_adj_list_step, h1, h2, hedn]
      · rcases hdt with hd | hd <;>
          simp [gdf_add_transposed_adj_list_step, h1, h2, hed, hd]
    have hR : gdf_add_adj_list
        { edgeList := some (swapEdgeList el), adjList := none,
          transposedAdjList := none, prop := none, numberOfVertices := 0 } =
        gdf_add_adj_list_impl
          { edgeList := some (swapEdgeList el), adjList := none,
            transposedAdjList := none, prop := none, numberOfVertices := 0 } := by
      rcases hw with hedn | ⟨ed, hed, hdt⟩
      · simp [gdf_add_adj_list, swapEdgeList, h2, hedn]
      · rcases hdt with hd | hd <;>
          simp [gdf_add_adj_list, swapEdgeList, h2, hed, hd]
    rw [gdf_add_transposed_adj_list_of_edgeList_some g el hE, hstep2, hR]
    refine ⟨gdf_add_transposed_adj_list_impl_fst g el hE, ?_⟩
    rcases hw with hedn | ⟨ed, hed, hdt⟩
    · simp [gdf_add_transposed_adj_list_impl, gdf_add_adj_list_impl, hT, hE,
        swapEdgeList, hedn, hsz, h1, h2, ConvertCOOtoCSR]
    · simp [gdf_add_transposed_adj_list_impl, gdf_add_adj_list_impl, hT, hE,
        swapEdgeList, hed, hsz, h1, h2, ConvertCOOtoCSR_weighted]
  · intro g hE hA
    obtain ⟨al, hAl⟩ : ∃ al, g.adjList = some al := by
      cases h : g.adjList with
      | none => exact absurd h hA
      | some al => exact ⟨al, rfl⟩
    have hfst : (gdf_add_edge_list g).1 = GDF_SUCCESS := by
      simp [gdf_add_edge_list, hE, hAl]
    have hsome : ¬((gdf_add_edge_list g).2.edgeList = none) := by
      simp [gdf_add_edge_list, hE, hAl]
    simp [gdf_add_transposed_adj_list, hE, hfst, hsome]

/-- Witness for C8: the transpose of `{(0,1),(0,2),(1,2)}` equals the forward
conversion of `{(1,0),(2,0),(2,1)}`, and on an adjacency-list-only handle the
call works through the derived edge list. -/
theorem C8_transpose_swaps_conversion_input_witness :
    ((gdf_add_transposed_adj_list
        { edgeList := some
            { src_indices := { data := [0, 0, 1], size := 3, dtype := GDF_INT32, null_count := 0 },
              dest_indices := { data := [1, 2, 2], size := 3, dtype := GDF_INT32, null_count := 0 },
              edge_data := none },
          adjList := none, transposedAdjList := none, prop := none,
          numberOfVertices := 0 }).1 = GDF_SUCCESS ∧
      (gdf_add_transposed_adj_list
        { edgeList := some
            { src_indices := { data := [0, 0, 1], size := 3, dtype := GDF_INT32, null_count := 0 },
              dest_indices := { data := [1, 2, 2], size := 3, dtype := GDF_INT32, null_count := 0 },
              edge_data := none },
          adjList := none, transposedAdjList := none, prop := none,
          numberOfVertices := 0 }).2.transposedAdjList =
        (gdf_add_adj_list
          { edgeList := some (swapEdgeList
              { src_indices := { data := [0, 0, 1], size := 3, dtype := GDF_INT32, null_count := 0 },
                dest_indices := { data := [1, 2, 2], size := 3, dtype := GDF_INT32, null_count := 0 },
                edge_data := none }), adjList := none,
            transposedAdjList := none, prop := none, numberOfVertices := 0 }).2.adjList) ∧
    gdf_add_transposed_adj_list
        { edgeList := none, adjList := some
            { offsets := { data := [0, 1, 1, 2], size := 4, dtype := GDF_INT32, null_count := 0 },
              indices := { data := [2, 0], size := 2, dtype := GDF_INT32, null_count := 0 },
              edge_data := none },
          transposedAdjList := none, prop := none, numberOfVertices := 3 } =
      gdf_add_transposed_adj_list
        (gdf_add_edge_list
          { edgeList := none, adjList := some
              { offsets := { data := [0, 1, 1, 2], size := 4, dtype := GDF_INT32, null_count := 0 },
                indices := { data := [2, 0], size := 2, dtype := GDF_INT32, null_count := 0 },
                edge_data := none },
            transposedAdjList := none, prop := none, numberOfVertices := 3 }).2 :=
  ⟨C8_transpose_swaps_conversion_input.1 _ _ rfl rfl rfl rfl rfl (Or.inl rfl),
   C8_transpose_swaps_conversion_input.2 _ rfl (by decide)⟩
